import Mathlib

/-!
Shallow embedding of `flow/manage.py` (signac-flow): the `JobStatus`
enumeration, the `update_status` reconciliation pass over the status
document, and the gated `submit` operation, together with proofs of the
behavioural properties claimed for them.

The status document of a job (`job.document["status"]`) is a Python dict from
job-submission-id strings to integer status ordinals; we model it as an
association list `List (String × Nat)` with Python-dict semantics
(assignment overwrites an existing key in place, otherwise appends).
The `env.submit` call of the scheduler environment either returns a value whose
truthiness we record as a `Bool`, or raises an exception, which we identify
by an abstract numeric id so that re-raising "the same" exception is
expressible.
-/

namespace Flow

/-- Ordinal of `JobStatus.unknown` (= 1) in the `JobStatus` IntEnum. -/
def JobStatus.unknown : Nat := 1

/-- Ordinal of `JobStatus.registered` (= 2). -/
def JobStatus.registered : Nat := 2

/-- Ordinal of `JobStatus.inactive` (= 3). -/
def JobStatus.inactive : Nat := 3

/-- Ordinal of `JobStatus.submitted` (= 4). -/
def JobStatus.submitted : Nat := 4

/-- Ordinal of `JobStatus.held` (= 5). -/
def JobStatus.held : Nat := 5

/-- Ordinal of `JobStatus.queued` (= 6). -/
def JobStatus.queued : Nat := 6

/-- Ordinal of `JobStatus.active` (= 7). -/
def JobStatus.active : Nat := 7

/-- Ordinal of `JobStatus.error` (= 8). -/
def JobStatus.error : Nat := 8

/-- Ordinal of `JobStatus.user` (= 128); user stati are `>= 128`. -/
def JobStatus.user : Nat := 128

/-- The built-in (non-user) stati in their declared low-to-high
significance order. -/
def builtin_stati : List Nat :=
  [JobStatus.unknown, JobStatus.registered, JobStatus.inactive,
   JobStatus.submitted, JobStatus.held, JobStatus.queued,
   JobStatus.active, JobStatus.error]

/-- A scheduler-side job handle: `ClusterJob` pairs a scheduler id with an
observed status (the `status()` accessor just returns the stored value). -/
structure ClusterJob where
  job_id : String
  status : Nat
  deriving DecidableEq, Repr

/-- The status document of a job: a dict from job-submission-id to status
ordinal. -/
abbrev StatusDoc := List (String × Nat)

/-- The scheduler job collection passed to `update_status`: a dict from
job-submission-id to `ClusterJob` (`scheduler_jobs.get`). -/
abbrev SchedulerJobs := List (String × ClusterJob)

/-- Python `dict.get(key)` / `d[key]` lookup on an association list. -/
def lookupKey {α : Type} : List (String × α) → String → Option α
  | [], _ => none
  | (k, v) :: rest, key => if k = key then some v else lookupKey rest key

/-- The inner `set_status` closure of `submit`:
`status_doc[jobsid] = int(value)` followed by writing the dict back.
Dict assignment overwrites the entry in place if the key is present,
otherwise appends a new entry. -/
def set_status : StatusDoc → String → Nat → StatusDoc
  | [], jobsid, value => [(jobsid, value)]
  | (k, w) :: rest, jobsid, value =>
      if k = jobsid then (jobsid, value) :: rest
      else (k, w) :: set_status rest jobsid value

/-- `_status_local`: attempt to determine status with local information
(a stub that always returns `JobStatus.unknown`). -/
def status_local (jobsid : String) : Nat :=
  JobStatus.unknown

/-- `_status_scheduler`: attempt to determine status with information from
the scheduler; `scheduler_jobs.get(jobsid)` is `None` gives `unknown`,
otherwise `max(JobStatus.registered, cjob.status())`. -/
def status_scheduler (jobsid : String) (scheduler_jobs : SchedulerJobs) : Nat :=
  match lookupKey scheduler_jobs jobsid with
  | none => JobStatus.unknown
  | some cjob => max JobStatus.registered cjob.status

/-- `update_status`: for every jobsid already present in the status
document, recompute its status as `_status_local(jobsid)`, maximised with
`_status_scheduler(jobsid, scheduler_jobs)` when a scheduler reference is
supplied, and write it back. The loop only rewrites values of existing
keys. -/
def update_status (status_doc : StatusDoc)
    (scheduler_jobs : Option SchedulerJobs) : StatusDoc :=
  status_doc.map (fun e =>
    let status := status_local e.1
    let status :=
      match scheduler_jobs with
      | none => status
      | some sj => max (status_scheduler e.1 sj) status
    (e.1, status))

/-- The job-submission-id derived by formatting project, job and identifier separated by dashes. -/
def mk_jobsid (project job identifier : String) : String :=
  project ++ "-" ++ job ++ "-" ++ identifier

/-- The observable behaviour of the scheduler `env.submit`
call: it either returns a value (recorded by its truthiness) or raises an
exception identified by an abstract id. -/
inductive EnvBehavior where
  | returns (truthy : Bool)
  | raises (e : Nat)
  deriving DecidableEq, Repr

/-- Exceptions that `submit` can propagate: a `KeyError` from the status
re-read (provably unreachable), the `AssertionError` from a falsy
`env.submit` return, or the exception of the scheduler re-raised by the
bare `raise`. -/
inductive Exn where
  | keyError
  | assertionError
  | schedulerExn (e : Nat)
  deriving DecidableEq, Repr

/-- How a `submit` call ends: a normal return value, or a propagated
exception. -/
inductive SubmitOutcome where
  | ret (value : Bool)
  | raises (e : Exn)
  deriving DecidableEq, Repr

/-- The full observable result of one `submit` call: how it ended, the
final status document, and whether `env.submit` was invoked. -/
structure SubmitResult where
  outcome : SubmitOutcome
  doc : StatusDoc
  envCalled : Bool
  deriving DecidableEq, Repr

/-- The `try: status = job.document["status"][jobsid] except KeyError:
set_status(registered)` prologue of `submit`: if the jobsid has no entry,
initialise it to `registered` and persist. -/
def initStatus (doc : StatusDoc) (jobsid : String) : StatusDoc :=
  match lookupKey doc jobsid with
  | some _ => doc
  | none => set_status doc jobsid JobStatus.registered

/-- `submit(env, project, state_point, script, identifier, force, pretend)`
from `flow/manage.py`. The status document stands in for the job;
`project` and `job` are the string forms used to derive the jobsid.
Steps: derive jobsid; read the status, initialising to `registered` on
`KeyError`; unless `force`, return `False` if the status is already
`>= submitted`; then `assert pretend or env.submit(...)` - on any
exception record `error` and re-raise, otherwise record `submitted` and
return `True`. -/
def submit (env : EnvBehavior) (doc0 : StatusDoc)
    (project job identifier : String) (force pretend : Bool) : SubmitResult :=
  let jobsid := mk_jobsid project job identifier
  let doc1 := initStatus doc0 jobsid
  match lookupKey doc1 jobsid with
  | none => ⟨.raises .keyError, doc1, false⟩
  | some status =>
    if force = false ∧ JobStatus.submitted ≤ status then
      ⟨.ret false, doc1, false⟩
    else if pretend then
      ⟨.ret true, set_status doc1 jobsid JobStatus.submitted, false⟩
    else
      match env with
      | .returns truthy =>
          if truthy then
            ⟨.ret true, set_status doc1 jobsid JobStatus.submitted, true⟩
          else
            ⟨.raises .assertionError, set_status doc1 jobsid JobStatus.error, true⟩
      | .raises e =>
          ⟨.raises (.schedulerExn e), set_status doc1 jobsid JobStatus.error, true⟩

/-! ### Basic lemmas about the status-document dictionary -/

theorem lookup_set_status_self (doc : StatusDoc) (jobsid : String) (v : Nat) :
    lookupKey (set_status doc jobsid v) jobsid = some v := by
  induction doc with
  | nil => simp [set_status, lookupKey]
  | cons hd tl ih =>
      obtain ⟨k, w⟩ := hd
      by_cases hk : k = jobsid
      · simp [set_status, hk, lookupKey]
      · simp [set_status, hk, lookupKey, ih]

theorem lookup_initStatus_of_none (doc : StatusDoc) (jobsid : String)
    (h : lookupKey doc jobsid = none) :
    lookupKey (initStatus doc jobsid) jobsid = some JobStatus.registered := by
  simp [initStatus, h, lookup_set_status_self]

theorem lookup_initStatus_of_some (doc : StatusDoc) (jobsid : String) (s : Nat)
    (h : lookupKey doc jobsid = some s) :
    initStatus doc jobsid = doc := by
  simp [initStatus, h]

theorem lookup_initStatus_isSome (doc : StatusDoc) (jobsid : String) :
    ∃ s, lookupKey (initStatus doc jobsid) jobsid = some s := by
  cases h : lookupKey doc jobsid with
  | some s =>
      refine ⟨s, ?_⟩
      rw [lookup_initStatus_of_some doc jobsid s h]
      exact h
  | none => exact ⟨_, lookup_initStatus_of_none doc jobsid h⟩

theorem gate_passes (doc : StatusDoc) (jobsid : String) (force : Bool) (s : Nat)
    (hgate : force = false →
      ∀ v, lookupKey doc jobsid = some v → v < JobStatus.submitted)
    (hs : lookupKey (initStatus doc jobsid) jobsid = some s) :
    ¬ (force = false ∧ JobStatus.submitted ≤ s) := by
  rintro ⟨hf, hle⟩
  cases h : lookupKey doc jobsid with
  | some v =>
      rw [lookup_initStatus_of_some doc jobsid v h, h] at hs
      obtain rfl : v = s := Option.some.inj hs
      exact absurd hle (Nat.not_le.mpr (hgate hf v h))
  | none =>
      rw [lookup_initStatus_of_none doc jobsid h] at hs
      obtain rfl : JobStatus.registered = s := Option.some.inj hs
      simp [JobStatus.registered, JobStatus.submitted] at hle

theorem submit_unfold (env : EnvBehavior) (doc : StatusDoc)
    (p j i : String) (force pretend : Bool) (s : Nat)
    (h : lookupKey (initStatus doc (mk_jobsid p j i)) (mk_jobsid p j i) = some s) :
    submit env doc p j i force pretend =
      (if force = false ∧ JobStatus.submitted ≤ s then
        ⟨.ret false, initStatus doc (mk_jobsid p j i), false⟩
      else if pretend then
        ⟨.ret true,
         set_status (initStatus doc (mk_jobsid p j i)) (mk_jobsid p j i)
           JobStatus.submitted, false⟩
      else
        match env with
        | .returns truthy =>
            if truthy then
              ⟨.ret true,
               set_status (initStatus doc (mk_jobsid p j i)) (mk_jobsid p j i)
                 JobStatus.submitted, true⟩
            else
              ⟨.raises .assertionError,
               set_status (initStatus doc (mk_jobsid p j i)) (mk_jobsid p j i)
                 JobStatus.error, true⟩
        | .raises e =>
            ⟨.raises (.schedulerExn e),
             set_status (initStatus doc (mk_jobsid p j i)) (mk_jobsid p j i)
               JobStatus.error, true⟩ : SubmitResult) := by
  simp only [submit]
  rw [h]

theorem lookup_update_status (doc : StatusDoc) (sj : Option SchedulerJobs)
    (k : String) (v : Nat) (h : lookupKey doc k = some v) :
    lookupKey (update_status doc sj) k =
      some (match sj with
        | none => status_local k
        | some s => max (status_scheduler k s) (status_local k)) := by
  induction doc with
  | nil => simp [lookupKey] at h
  | cons hd tl ih =>
      obtain ⟨k0, v0⟩ := hd
      by_cases hk : k0 = k
      · subst hk
        simp [update_status, lookupKey]
      · simp only [lookupKey, if_neg hk] at h
        have htl := ih h
        simp only [update_status, List.map_cons] at htl ⊢
        simpa [lookupKey, hk] using htl

/-! ### Claims -/

/-- Claim C7: the status enumeration is totally ordered by underlying
ordinal, `unknown < registered < inactive < submitted < held < queued <
active < error`; `max` of two stati is the one of higher significance in
that order; and user-defined stati occupy the reserved range `>= 128`,
above all built-in values. -/
theorem jobStatus_total_order_max :
    (JobStatus.unknown < JobStatus.registered ∧
     JobStatus.registered < JobStatus.inactive ∧
     JobStatus.inactive < JobStatus.submitted ∧
     JobStatus.submitted < JobStatus.held ∧
     JobStatus.held < JobStatus.queued ∧
     JobStatus.queued < JobStatus.active ∧
     JobStatus.active < JobStatus.error) ∧
    (∀ i j : Fin 8,
      max (builtin_stati.getD i.val 0) (builtin_stati.getD j.val 0)
        = builtin_stati.getD (max i.val j.val) 0) ∧
    128 ≤ JobStatus.user ∧
    (∀ i : Fin 8, builtin_stati.getD i.val 0 < JobStatus.user) := by
  refine ⟨by decide, by decide, by decide, by decide⟩

/-- Claim C6: with no scheduler reference, `update_status` rewrites every
existing entry of the status document to `unknown`, because the local
inference path `_status_local` is a stub that always returns `unknown`. -/
theorem update_status_no_scheduler_all_unknown (doc : StatusDoc) :
    update_status doc none = doc.map (fun e => (e.1, JobStatus.unknown)) ∧
    ∀ jobsid : String, status_local jobsid = JobStatus.unknown := by
  exact ⟨rfl, fun _ => rfl⟩

/-- Claim C9: `update_status` only rewrites values of job-submission-ids
already present in the status document - the list of keys after the call
equals the list of keys before it, for any scheduler argument. -/
theorem update_status_preserves_keys (doc : StatusDoc)
    (scheduler_jobs : Option SchedulerJobs) :
    (update_status doc scheduler_jobs).map Prod.fst = doc.map Prod.fst := by
  simp [update_status]

/-- Claim C1: if the status document maps the derived jobsid to a status
`>= submitted`, then `submit` with `force = false` returns `False`, never
invokes `env.submit`, and leaves the status document unchanged - so a
second `submit` with default arguments after a successful first one is a
no-op returning `False`. -/
theorem submit_blocked_when_submitted (env : EnvBehavior) (doc : StatusDoc)
    (p j i : String) (pretend : Bool) (s : Nat)
    (h : lookupKey doc (mk_jobsid p j i) = some s)
    (hs : JobStatus.submitted ≤ s) :
    submit env doc p j i false pretend = ⟨.ret false, doc, false⟩ := by
  have hinit := lookup_initStatus_of_some doc (mk_jobsid p j i) s h
  rw [submit_unfold env doc p j i false pretend s (by rw [hinit]; exact h),
    hinit]
  simp [hs]

/-- Concrete run of the blocked-resubmission scenario: on a fresh job the
first `submit` succeeds and records `submitted`; the second `submit` with
default arguments returns `False` with no scheduler call and no document
change. -/
theorem submit_blocked_when_submitted_witness :
    submit (.returns true) [] "p" "j" "default" false false
      = ⟨.ret true, [(mk_jobsid "p" "j" "default", JobStatus.submitted)], true⟩ ∧
    submit (.returns true)
        [(mk_jobsid "p" "j" "default", JobStatus.submitted)]
        "p" "j" "default" false false
      = ⟨.ret false, [(mk_jobsid "p" "j" "default", JobStatus.submitted)], false⟩ :=
  ⟨by decide,
   submit_blocked_when_submitted (.returns true)
     [(mk_jobsid "p" "j" "default", JobStatus.submitted)]
     "p" "j" "default" false JobStatus.submitted (by decide) (by decide)⟩

/-- Claim C2: whenever `submit` reaches the submission attempt (the gate
does not block) with `pretend = false` and `env.submit` raises, `submit`
records status `error` for the jobsid and re-raises the very same
exception to the caller. -/
theorem submit_scheduler_exn_records_error_and_reraises
    (doc : StatusDoc) (p j i : String) (force : Bool) (e : Nat)
    (hgate : force = false → ∀ v, lookupKey doc (mk_jobsid p j i) = some v →
      v < JobStatus.submitted) :
    (submit (.raises e) doc p j i force false).outcome
        = .raises (.schedulerExn e) ∧
    lookupKey (submit (.raises e) doc p j i force false).doc (mk_jobsid p j i)
        = some JobStatus.error ∧
    (submit (.raises e) doc p j i force false).envCalled = true := by
  obtain ⟨s, hs⟩ := lookup_initStatus_isSome doc (mk_jobsid p j i)
  have hng := gate_passes doc (mk_jobsid p j i) force s hgate hs
  rw [submit_unfold (.raises e) doc p j i force false s hs, if_neg hng]
  simp [lookup_set_status_self]

/-- Concrete run of the scheduler-exception path: with recorded status
`inactive` (below `submitted`), a raising scheduler leaves outcome
`schedulerExn 7`, status `error`, and the scheduler was invoked. -/
theorem submit_scheduler_exn_witness :
    (submit (.raises 7) [(mk_jobsid "p" "j" "default", JobStatus.inactive)]
        "p" "j" "default" false false).outcome = .raises (.schedulerExn 7) ∧
    lookupKey (submit (.raises 7)
        [(mk_jobsid "p" "j" "default", JobStatus.inactive)]
        "p" "j" "default" false false).doc (mk_jobsid "p" "j" "default")
      = some JobStatus.error ∧
    (submit (.raises 7) [(mk_jobsid "p" "j" "default", JobStatus.inactive)]
        "p" "j" "default" false false).envCalled = true :=
  submit_scheduler_exn_records_error_and_reraises
    [(mk_jobsid "p" "j" "default", JobStatus.inactive)]
    "p" "j" "default" false 7
    (by
      intro _ v h
      simp [lookupKey, JobStatus.inactive] at h
      simp only [JobStatus.submitted]
      omega)

/-- Claim C3: whenever `submit` with `pretend = true` passes the gate
check, `env.submit` is never invoked, yet the status document records
`submitted` for the jobsid and `submit` returns `True`. -/
theorem submit_pretend_success_without_env
    (env : EnvBehavior) (doc : StatusDoc) (p j i : String) (force : Bool)
    (hgate : force = false → ∀ v, lookupKey doc (mk_jobsid p j i) = some v →
      v < JobStatus.submitted) :
    (submit env doc p j i force true).envCalled = false ∧
    lookupKey (submit env doc p j i force true).doc (mk_jobsid p j i)
        = some JobStatus.submitted ∧
    (submit env doc p j i force true).outcome = .ret true := by
  obtain ⟨s, hs⟩ := lookup_initStatus_isSome doc (mk_jobsid p j i)
  have hng := gate_passes doc (mk_jobsid p j i) force s hgate hs
  rw [submit_unfold env doc p j i force true s hs, if_neg hng]
  simp [lookup_set_status_self]

/-- Concrete run of the pretend path: on a fresh job, even with a
scheduler that would raise, `pretend = true` records `submitted`, returns
`True` and never contacts the scheduler. -/
theorem submit_pretend_success_without_env_witness :
    (submit (.raises 5) [] "p" "j" "default" false true).envCalled = false ∧
    lookupKey (submit (.raises 5) [] "p" "j" "default" false true).doc
        (mk_jobsid "p" "j" "default") = some JobStatus.submitted ∧
    (submit (.raises 5) [] "p" "j" "default" false true).outcome = .ret true :=
  submit_pretend_success_without_env (.raises 5) [] "p" "j" "default" false
    (by
      intro _ v h
      simp [lookupKey] at h)

/-- Claim C4: when the status document has no entry for the derived
jobsid, `submit` initialises that entry to `registered` via `set_status`
and persists it immediately - the rest of the call (gate check and
submission attempt) behaves exactly as if run on the already-initialised
document. -/
theorem submit_initializes_registered (env : EnvBehavior) (doc : StatusDoc)
    (p j i : String) (force pretend : Bool)
    (h : lookupKey doc (mk_jobsid p j i) = none) :
    initStatus doc (mk_jobsid p j i)
        = set_status doc (mk_jobsid p j i) JobStatus.registered ∧
    lookupKey (initStatus doc (mk_jobsid p j i)) (mk_jobsid p j i)
        = some JobStatus.registered ∧
    submit env doc p j i force pretend
        = submit env (initStatus doc (mk_jobsid p j i)) p j i force pretend := by
  have h1 : lookupKey (initStatus doc (mk_jobsid p j i)) (mk_jobsid p j i)
      = some JobStatus.registered := lookup_initStatus_of_none doc _ h
  have h2 : initStatus (initStatus doc (mk_jobsid p j i)) (mk_jobsid p j i)
      = initStatus doc (mk_jobsid p j i) :=
    lookup_initStatus_of_some _ _ JobStatus.registered h1
  refine ⟨by simp [initStatus, h], h1, ?_⟩
  simp only [submit, h2]

/-- Concrete run of the registration prologue on an empty status
document. -/
theorem submit_initializes_registered_witness :
    initStatus [] (mk_jobsid "p" "j" "default")
        = set_status [] (mk_jobsid "p" "j" "default") JobStatus.registered ∧
    lookupKey (initStatus [] (mk_jobsid "p" "j" "default"))
        (mk_jobsid "p" "j" "default") = some JobStatus.registered ∧
    submit (.returns true) [] "p" "j" "default" false false
        = submit (.returns true) (initStatus [] (mk_jobsid "p" "j" "default"))
            "p" "j" "default" false false :=
  submit_initializes_registered (.returns true) [] "p" "j" "default"
    false false (by decide)

/-- Claim C5: for a jobsid already present in the status document,
`update_status` with a scheduler reference records
`max(registered, reported_status)` when the scheduler knows the id, and
`unknown` when it does not. -/
theorem update_status_with_scheduler (doc : StatusDoc) (sj : SchedulerJobs)
    (jobsid : String) (v : Nat) (h : lookupKey doc jobsid = some v) :
    lookupKey (update_status doc (some sj)) jobsid =
      some (match lookupKey sj jobsid with
        | some cjob => max JobStatus.registered cjob.status
        | none => JobStatus.unknown) := by
  rw [lookup_update_status doc (some sj) jobsid v h]
  cases hc : lookupKey sj jobsid with
  | none => simp [status_scheduler, status_local, hc]
  | some c =>
      simp only [status_scheduler, status_local, hc]
      congr 1
      simp [JobStatus.registered, JobStatus.unknown]

/-- Concrete reconciliation run: a reported `unknown` yields `registered`,
a reported `inactive` stays `inactive`, and an id the scheduler does not
know becomes `unknown`. -/
theorem update_status_with_scheduler_witness :
    lookupKey (update_status
        [("a", JobStatus.submitted), ("b", JobStatus.submitted),
         ("c", JobStatus.submitted)]
        (some [("a", ⟨"a", JobStatus.unknown⟩), ("b", ⟨"b", JobStatus.inactive⟩)]))
      "a" = some JobStatus.registered ∧
    lookupKey (update_status
        [("a", JobStatus.submitted), ("b", JobStatus.submitted),
         ("c", JobStatus.submitted)]
        (some [("a", ⟨"a", JobStatus.unknown⟩), ("b", ⟨"b", JobStatus.inactive⟩)]))
      "b" = some JobStatus.inactive ∧
    lookupKey (update_status
        [("a", JobStatus.submitted), ("b", JobStatus.submitted),
         ("c", JobStatus.submitted)]
        (some [("a", ⟨"a", JobStatus.unknown⟩), ("b", ⟨"b", JobStatus.inactive⟩)]))
      "c" = some JobStatus.unknown := by
  refine ⟨?_, ?_, ?_⟩
  · rw [update_status_with_scheduler _ _ "a" JobStatus.submitted (by decide)]
    decide
  · rw [update_status_with_scheduler _ _ "b" JobStatus.submitted (by decide)]
    decide
  · rw [update_status_with_scheduler _ _ "c" JobStatus.submitted (by decide)]
    decide

/-- Claim C8: when the recorded status for the jobsid is already
`submitted` or higher, `submit` with `force = true` skips the gate check
and still attempts the submission via `env.submit`. -/
theorem submit_force_attempts_env (env : EnvBehavior) (doc : StatusDoc)
    (p j i : String) (s : Nat)
    (h : lookupKey doc (mk_jobsid p j i) = some s)
    (hs : JobStatus.submitted ≤ s) :
    (submit env doc p j i true false).envCalled = true := by
  have hinit := lookup_initStatus_of_some doc (mk_jobsid p j i) s h
  rw [submit_unfold env doc p j i true false s (by rw [hinit]; exact h)]
  cases env with
  | returns truthy => cases truthy <;> simp
  | raises e => simp

/-- Concrete forced resubmission: with recorded status `submitted`, the
scheduler is contacted again under `force = true`. -/
theorem submit_force_attempts_env_witness :
    (submit (.returns true)
        [(mk_jobsid "p" "j" "default", JobStatus.submitted)]
        "p" "j" "default" true false).envCalled = true :=
  submit_force_attempts_env (.returns true)
    [(mk_jobsid "p" "j" "default", JobStatus.submitted)]
    "p" "j" "default" JobStatus.submitted (by decide) (by decide)

/-- Claim C10: when `submit` with `pretend = false` passes the gate and
`env.submit` returns a falsy value without raising, the `assert` fails:
`submit` raises an `AssertionError` and records status `error` for the
jobsid, exactly as for a scheduler exception. -/
theorem submit_falsy_env_raises_assertion (doc : StatusDoc)
    (p j i : String) (force : Bool)
    (hgate : force = false → ∀ v, lookupKey doc (mk_jobsid p j i) = some v →
      v < JobStatus.submitted) :
    (submit (.returns false) doc p j i force false).outcome
        = .raises .assertionError ∧
    lookupKey (submit (.returns false) doc p j i force false).doc
        (mk_jobsid p j i) = some JobStatus.error ∧
    (submit (.returns false) doc p j i force false).envCalled = true := by
  obtain ⟨s, hs⟩ := lookup_initStatus_isSome doc (mk_jobsid p j i)
  have hng := gate_passes doc (mk_jobsid p j i) force s hgate hs
  rw [submit_unfold (.returns false) doc p j i force false s hs, if_neg hng]
  simp [lookup_set_status_self]

/-- Concrete falsy-return run on a fresh job: the result is an
`AssertionError` with status `error` and the scheduler was invoked. -/
theorem submit_falsy_env_raises_assertion_witness :
    (submit (.returns false) [] "p" "j" "default" false false).outcome
        = .raises .assertionError ∧
    lookupKey (submit (.returns false) [] "p" "j" "default" false false).doc
        (mk_jobsid "p" "j" "default") = some JobStatus.error ∧
    (submit (.returns false) [] "p" "j" "default" false false).envCalled
        = true :=
  submit_falsy_env_raises_assertion [] "p" "j" "default" false
    (by
      intro _ v h
      simp [lookupKey] at h)

end Flow
